import Mathlib

/-!
Shallow embedding of the PatrickStar memory-management core:
`src/manager/manager.py` (Metronome, PatrickStarManager) and
`src/patrickstar/core/chunk.py` (Chunk).  Python integers and floats are
modelled as exact rationals (`ℚ`) where sizes mix with float capacities,
and as `Nat`/`Int` where the source only ever holds integers.  Fallible
Python code (asserts, division by zero, attribute errors on `None`,
list-index errors) is modelled with `Option`/`Except`.
-/

/-- The two device classes the manager dispatches on (`"cpu"` / `"cuda"`
string tags in the source). -/
inductive DeviceType where
  | cpu : DeviceType
  | cuda : DeviceType
deriving DecidableEq, Repr

/-- Tensor element dtypes that appear in the source (`torch.float`,
`torch.half`). -/
inductive Dtype where
  | float : Dtype
  | half : Dtype
deriving DecidableEq, Repr

/-- `getsizeof` from `patrickstar.utils`: bytes per element of a dtype. -/
def getsizeof : Dtype → Nat
  | Dtype.float => 4
  | Dtype.half => 2

/-- Derived chunk states from `patrickstar.core.const.ChunkState`. -/
inductive ChunkState where
  | RELEASED : ChunkState
  | COMPUTE : ChunkState
  | HOLD : ChunkState
deriving DecidableEq, Repr

namespace PS

/-- `Metronome` from `src/manager/manager.py`: a step counter with a
cycle length captured at `reset`. `_total_moment` is `none` until
`reset` is called (Python `None`). -/
structure Metronome where
  _moment : Nat
  _total_moment : Option Nat
deriving DecidableEq, Repr

namespace Metronome

/-- `Metronome.__init__`. -/
def init : Metronome := { _moment := 0, _total_moment := none }

/-- `Metronome.tiktac`: increment the step counter. -/
def tiktac (m : Metronome) : Metronome := { m with _moment := m._moment + 1 }

/-- `Metronome.moment`. -/
def moment (m : Metronome) : Nat := m._moment

/-- `Metronome.reset`: capture `_total_moment := _moment`, restart at 0. -/
def reset (m : Metronome) : Metronome :=
  { _moment := 0, _total_moment := some m._moment }

/-- `Metronome.next_moment`: `assert self._total_moment is not None`,
then `(self._moment + 1) % self._total_moment`.  The assert failing is
an `AssertionError`; when `_total_moment = 0` Python's `%` raises
`ZeroDivisionError`. -/
def next_moment (m : Metronome) : Except String Nat :=
  match m._total_moment with
  | none => Except.error "AssertionError"
  | some t =>
      if t = 0 then Except.error "ZeroDivisionError"
      else Except.ok ((m._moment + 1) % t)

end Metronome

/-- `PatrickStarManager` from `src/manager/manager.py` (the UsageTracer
plus scheduler state).  Byte quantities are exact rationals: the overall
capacities come from `total_memory * 0.6 / world_size` (Python floats),
the counters from integer arithmetic; both embed exactly in `ℚ`. -/
structure PatrickStarManager where
  gpu_chunk_available_mem : ℚ
  cpu_chunk_available_mem : ℚ
  gpu_chunk_used_mem : ℚ
  cpu_chunk_used_mem : ℚ
  _overall_gpu_mem : ℚ
  _overall_cpu_mem : ℚ
  cpu_used_list : List ℚ
  cpu_chunk_used_list : List ℚ
  cpu_sys_used_list : List ℚ
  gpu_used_list : List ℚ
  gpu_chunk_used_list : List ℚ
  gpu_sys_used_list : List ℚ
  metronome : Metronome
  warmup : Bool
  _start_training : Bool
deriving DecidableEq, Repr

namespace PatrickStarManager

/-- `PatrickStarManager.add`: register `size_in_bytes` more chunk bytes
on the device class. -/
def add (m : PatrickStarManager) (device_type : DeviceType)
    (size_in_bytes : ℚ) : PatrickStarManager :=
  match device_type with
  | DeviceType.cpu =>
      { m with cpu_chunk_used_mem := m.cpu_chunk_used_mem + size_in_bytes }
  | DeviceType.cuda =>
      { m with gpu_chunk_used_mem := m.gpu_chunk_used_mem + size_in_bytes }

/-- `PatrickStarManager.delete`: unregister `size_in_bytes` chunk bytes
on the device class.  The source subtracts unconditionally — there is no
non-negativity check. -/
def delete (m : PatrickStarManager) (device_type : DeviceType)
    (size_in_bytes : ℚ) : PatrickStarManager :=
  match device_type with
  | DeviceType.cpu =>
      { m with cpu_chunk_used_mem := m.cpu_chunk_used_mem - size_in_bytes }
  | DeviceType.cuda =>
      { m with gpu_chunk_used_mem := m.gpu_chunk_used_mem - size_in_bytes }

/-- `PatrickStarManager.used_chunk_mem`. -/
def used_chunk_mem (m : PatrickStarManager) (device_type : DeviceType) : ℚ :=
  match device_type with
  | DeviceType.cpu => m.cpu_chunk_used_mem
  | DeviceType.cuda => m.gpu_chunk_used_mem

/-- `PatrickStarManager.available_chunk_mem`.  `none` models the Python
failures (assert in `next_moment`, `%` by zero, list index out of
range).  `500 * 1e6` is exact: `500000000`. -/
def available_chunk_mem (m : PatrickStarManager) (device_type : DeviceType) :
    Option ℚ :=
  match device_type with
  | DeviceType.cpu =>
      if m.warmup || !m._start_training then
        some m._overall_cpu_mem
      else
        match m.metronome.next_moment with
        | Except.error _ => none
        | Except.ok next_mem =>
            match m.cpu_sys_used_list.get? next_mem,
                  m.cpu_sys_used_list.get? m.metronome.moment with
            | some nsys, some csys =>
                some (min (m._overall_cpu_mem - nsys)
                      (m._overall_cpu_mem - csys) - 500 * 1000000)
            | _, _ => none
  | DeviceType.cuda =>
      if m.warmup || !m._start_training then
        some (m._overall_gpu_mem / 3)
      else
        match m.metronome.next_moment with
        | Except.error _ => none
        | Except.ok next_mom =>
            match m.gpu_sys_used_list.get? next_mom,
                  m.gpu_sys_used_list.get? m.metronome.moment with
            | some nsys, some csys =>
                some (min (m._overall_gpu_mem - nsys)
                      (m._overall_gpu_mem - csys) - 500 * 1000000)
            | _, _ => none

/-- `PatrickStarManager.tiktac`.  External observations are passed in:
`gpu_used`/`cpu_used` are the warm-up samples from
`get_sys_memory_used`, and `gpu_demand`/`cpu_demand` are
`client.chunk_list.get_chunk_memory_used` for each device.  The result
pairs the updated manager with the list of
`client.chunk_list.make_room(offload_size, device)` calls issued, in
order; `none` models the Python failures in the steady branch. -/
def tiktac (m : PatrickStarManager) (gpu_used cpu_used : ℚ)
    (gpu_demand cpu_demand : ℚ) :
    Option (PatrickStarManager × List (ℚ × DeviceType)) :=
  if m.warmup then
    some ({ m with
            cpu_used_list := m.cpu_used_list ++ [cpu_used]
            cpu_chunk_used_list :=
              m.cpu_chunk_used_list ++ [m.cpu_chunk_used_mem]
            cpu_sys_used_list :=
              m.cpu_sys_used_list ++ [cpu_used - m.cpu_chunk_used_mem]
            gpu_used_list := m.gpu_used_list ++ [gpu_used]
            gpu_chunk_used_list :=
              m.gpu_chunk_used_list ++ [m.gpu_chunk_used_mem]
            gpu_sys_used_list :=
              m.gpu_sys_used_list ++ [gpu_used - m.gpu_chunk_used_mem]
            metronome := m.metronome.tiktac }, [])
  else
    match m.metronome.next_moment with
    | Except.error _ => none
    | Except.ok next_mom =>
        match m.gpu_sys_used_list.get? next_mom,
              m.cpu_sys_used_list.get? next_mom with
        | some gpu_sys, some cpu_sys =>
            let next_mom_ava_gpu_mem := m._overall_gpu_mem - gpu_sys
            let gpu_calls :=
              if next_mom_ava_gpu_mem < gpu_demand then
                [(gpu_demand - next_mom_ava_gpu_mem, DeviceType.cuda)]
              else []
            let next_mom_ava_cpu_mem := m._overall_cpu_mem - cpu_sys
            let cpu_calls :=
              if next_mom_ava_cpu_mem < cpu_demand then
                [(cpu_demand - next_mom_ava_cpu_mem, DeviceType.cpu)]
              else []
            some ({ m with metronome := m.metronome.tiktac },
                  gpu_calls ++ cpu_calls)
        | _, _ => none

end PatrickStarManager

/-- `TensorInfo` from `patrickstar.core.parameter`: the fixed
`(chunk_id, offset)` a slice receives when packed into a chunk. -/
structure TensorInfo where
  chunk_id : Nat
  offset : Nat
deriving DecidableEq, Repr

/-- A parameter (tensor slice descriptor) as `Chunk.add_param` sees it:
its dtype, its element count `ps_attr.numel`, and the packing info
assigned on success. -/
structure Param where
  dtype : Dtype
  numel : Nat
  info : Option TensorInfo
deriving DecidableEq, Repr

/-- A chunk payload: the backing buffer's device, dtype, element count
and pinned-ness. -/
structure Payload where
  device : DeviceType
  dtype : Dtype
  numel : Nat
  pinned : Bool
deriving DecidableEq, Repr

/-- `Chunk` from `src/patrickstar/core/chunk.py`.  `state` mirrors the
stray `self.state` attribute that `allocate_payload`/`release_payload`
assign (absent until first assigned). -/
structure Chunk where
  chunk_id : Nat
  dtype : Dtype
  capacity : Nat
  payload : Option Payload
  _pin_flag : Bool
  end_pos : Nat
  params : List Param
  num_in_compute : Nat
  state : Option ChunkState
deriving DecidableEq, Repr

namespace Chunk

/-- `Chunk.__init__`. -/
def init (dtype : Dtype) (capacity : Nat) (chunk_id : Nat) : Chunk :=
  { chunk_id := chunk_id, dtype := dtype, capacity := capacity
    payload := none, _pin_flag := false, end_pos := 0, params := []
    num_in_compute := 0, state := none }

/-- `Chunk.get_payload_space`: bytes of the payload, 0 if absent. -/
def get_payload_space (c : Chunk) : Nat :=
  match c.payload with
  | none => 0
  | some p => getsizeof p.dtype * p.numel

/-- `Chunk.get_device`. -/
def get_device (c : Chunk) : Option DeviceType :=
  match c.payload with
  | none => none
  | some p => some p.device

/-- `Chunk.get_state`: `RELEASED` without payload, else `COMPUTE` when
`num_in_compute > 0`, else `HOLD`. -/
def get_state (c : Chunk) : ChunkState :=
  match c.payload with
  | none => ChunkState.RELEASED
  | some _ =>
      if c.num_in_compute > 0 then ChunkState.COMPUTE else ChunkState.HOLD

/-- `Chunk.can_fit`: `capacity - end_pos >= numel` over Python ints. -/
def can_fit (c : Chunk) (numel : Nat) : Bool :=
  decide ((c.capacity : Int) - (c.end_pos : Int) ≥ (numel : Int))

/-- `Chunk.add_param`: `assert param.dtype == torch.float` (modelled as
`none`); return `False` without mutation when `can_fit` fails;
otherwise append the param with `TensorInfo(chunk_id, end_pos)`,
advance `end_pos`, return `True`. -/
def add_param (c : Chunk) (param : Param) : Option (Chunk × Bool) :=
  if param.dtype ≠ Dtype.float then none
  else
    let numel := param.numel
    if ¬ c.can_fit numel then some (c, false)
    else
      some ({ c with
              params := c.params ++
                [{ param with info := some ⟨c.chunk_id, c.end_pos⟩ }]
              end_pos := c.end_pos + numel }, true)

/-- `Chunk.allocate_payload`: unconditionally install a fresh
zero-filled buffer of `capacity` elements of the chunk dtype on
`device` (pinned when on cpu) and register its bytes with the tracer.
The source performs no payload-absent check. -/
def allocate_payload (c : Chunk) (device : DeviceType)
    (mgr : PatrickStarManager) : Chunk × PatrickStarManager :=
  let c' := { c with
              payload := some { device := device, dtype := c.dtype
                                numel := c.capacity
                                pinned := device = DeviceType.cpu }
              state := some ChunkState.HOLD }
  (c', mgr.add device (c'.get_payload_space : ℚ))

/-- `Chunk.release_payload`: unregister the payload bytes at the
payload's current device, then drop the payload.  With no payload the
source raises (`None.type`), modelled as `none`.  No `num_in_compute`
check appears in the source. -/
def release_payload (c : Chunk) (mgr : PatrickStarManager) :
    Option (Chunk × PatrickStarManager) :=
  match c.payload with
  | none => none
  | some p =>
      some ({ c with payload := none, state := some ChunkState.RELEASED },
            mgr.delete p.device (c.get_payload_space : ℚ))

/-- `Chunk.move`: `assert src_device is not None and src_device !=
target_device` (modelled as `none`), copy the payload to a fresh buffer
on the target (same shape and dtype), then `delete` the bytes at the
source device and `add` them at the target.  No `num_in_compute` check
appears in the source. -/
def move (c : Chunk) (target_device : DeviceType)
    (mgr : PatrickStarManager) : Option (Chunk × PatrickStarManager) :=
  match c.payload with
  | none => none
  | some p =>
      if p.device = target_device then none
      else
        let newp : Payload :=
          match target_device with
          | DeviceType.cpu =>
              { p with device := DeviceType.cpu, pinned := true }
          | DeviceType.cuda =>
              { p with device := DeviceType.cuda, pinned := false }
        let c' := { c with payload := some newp }
        let mgr' := mgr.delete p.device (c'.get_payload_space : ℚ)
        let mgr'' := mgr'.add target_device (c'.get_payload_space : ℚ)
        some (c', mgr'')

end Chunk

/-- Run `add_param` as a Python caller does: on an `AssertionError`
(dtype mismatch) the process aborts with the chunk unchanged, otherwise
the chunk advances to the returned state. -/
def add_param_step (c : Chunk) (p : Param) : Chunk :=
  match c.add_param p with
  | none => c
  | some r => r.1

/-- A finite sequence of `add_param` calls on a chunk. -/
def add_param_run (c : Chunk) (ps : List Param) : Chunk :=
  ps.foldl add_param_step c

/-- A baseline manager value for concrete instantiations (all counters
zero, empty history, fresh metronome). -/
def testMgr : PatrickStarManager :=
  { gpu_chunk_available_mem := 0, cpu_chunk_available_mem := 0
    gpu_chunk_used_mem := 0, cpu_chunk_used_mem := 0
    _overall_gpu_mem := 0, _overall_cpu_mem := 0
    cpu_used_list := [], cpu_chunk_used_list := [], cpu_sys_used_list := []
    gpu_used_list := [], gpu_chunk_used_list := [], gpu_sys_used_list := []
    metronome := Metronome.init, warmup := false, _start_training := false }

/-- The spec's steady-state scenario: warm-up recorded gpu system usage
`[100, 120, 90]`, `overallCapacity = 300`, metronome reset with
`total_steps = 3`, currently at step 0. -/
def steadyMgr : PatrickStarManager :=
  { testMgr with
    _overall_gpu_mem := 300
    _overall_cpu_mem := 1000
    gpu_sys_used_list := [100, 120, 90]
    cpu_sys_used_list := [0, 0, 0]
    metronome := { _moment := 0, _total_moment := some 3 }
    warmup := false
    _start_training := true }

/-- A chunk of capacity 10 half elements whose payload (20 bytes) lives
on the cpu, currently marked in compute by one param. -/
def computeChunk : Chunk :=
  { Chunk.init Dtype.half 10 0 with
    payload := some { device := DeviceType.cpu, dtype := Dtype.half
                      numel := 10, pinned := true }
    num_in_compute := 1 }

/-- A chunk of capacity 10 half elements whose payload (20 bytes) lives
on the cpu, not in compute. -/
def cpuChunk : Chunk :=
  { Chunk.init Dtype.half 10 0 with
    payload := some { device := DeviceType.cpu, dtype := Dtype.half
                      numel := 10, pinned := true } }

/-- A manager tracking 100 chunk bytes on cpu and 50 on gpu. -/
def mgrAB : PatrickStarManager :=
  { testMgr with cpu_chunk_used_mem := 100, gpu_chunk_used_mem := 50 }

/-- The spec's packing scenario: an empty chunk of capacity 1000. -/
def chunk1000 : Chunk := Chunk.init Dtype.half 1000 0

/-- A 400-element float param. -/
def p400 : Param := { dtype := Dtype.float, numel := 400, info := none }

/-- A 300-element float param. -/
def p300 : Param := { dtype := Dtype.float, numel := 300, info := none }

/-- `chunk1000` after packing one 400-element param. -/
def c7_c1 : Chunk :=
  { chunk1000 with
    params := [{ p400 with info := some ⟨0, 0⟩ }]
    end_pos := 400 }

/-- `c7_c1` after packing a second 400-element param. -/
def c7_c2 : Chunk :=
  { c7_c1 with
    params := c7_c1.params ++ [{ p400 with info := some ⟨0, 400⟩ }]
    end_pos := 800 }

end PS

open PS

/-! ## Helper lemmas -/

/-- Anatomy of a successful `add_param`: capacity is never changed, and
the end offset either stays (return `False`) or advances by the param's
element count under a successful `can_fit`. -/
theorem add_param_some_cases (c : Chunk) (p : Param) (r : Chunk × Bool)
    (h : c.add_param p = some r) :
    r.1.capacity = c.capacity ∧
      (r.1.end_pos = c.end_pos ∨
        (r.1.end_pos = c.end_pos + p.numel ∧ c.can_fit p.numel = true)) := by
  unfold Chunk.add_param at h
  by_cases hd : p.dtype = Dtype.float
  · simp only [hd, ne_eq, not_true_eq_false, if_false] at h
    by_cases hf : c.can_fit p.numel
    · simp only [hf, not_true_eq_false, if_false] at h
      cases h
      exact ⟨rfl, Or.inr ⟨rfl, hf⟩⟩
    · simp only [hf, not_false_eq_true, if_true] at h
      cases h
      exact ⟨rfl, Or.inl rfl⟩
  · simp [hd] at h

/-- `can_fit` succeeding means the advanced offset still fits below
capacity. -/
theorem can_fit_le (c : Chunk) (n : Nat) (h : c.can_fit n = true) :
    c.end_pos + n ≤ c.capacity := by
  unfold Chunk.can_fit at h
  rw [decide_eq_true_iff] at h
  omega

/-- One caller-side `add_param` step preserves capacity. -/
theorem add_param_step_capacity (c : Chunk) (p : Param) :
    (add_param_step c p).capacity = c.capacity := by
  unfold add_param_step
  cases h : c.add_param p with
  | none => rfl
  | some r => exact (add_param_some_cases c p r h).1

/-- One caller-side `add_param` step preserves `end_pos ≤ capacity`. -/
theorem add_param_step_invariant (c : Chunk) (p : Param)
    (h : c.end_pos ≤ c.capacity) :
    (add_param_step c p).end_pos ≤ (add_param_step c p).capacity := by
  rw [add_param_step_capacity]
  unfold add_param_step
  cases hr : c.add_param p with
  | none => exact h
  | some r =>
      rcases (add_param_some_cases c p r hr).2 with he | ⟨he, hf⟩
      · rw [he]; exact h
      · rw [he]; exact can_fit_le c p.numel hf

/-- Registering bytes raises the device's own counter by the size. -/
theorem add_used (m : PatrickStarManager) (d : DeviceType) (s : ℚ) :
    (m.add d s).used_chunk_mem d = m.used_chunk_mem d + s := by
  cases d <;>
    simp [PatrickStarManager.add, PatrickStarManager.used_chunk_mem]

/-- Unregistering bytes lowers the device's own counter by the size. -/
theorem delete_used (m : PatrickStarManager) (d : DeviceType) (s : ℚ) :
    (m.delete d s).used_chunk_mem d = m.used_chunk_mem d - s := by
  cases d <;>
    simp [PatrickStarManager.delete, PatrickStarManager.used_chunk_mem]

/-- Registering bytes on one device leaves the other device's counter
alone. -/
theorem add_used_other (m : PatrickStarManager) (d e : DeviceType)
    (s : ℚ) (h : d ≠ e) :
    (m.add d s).used_chunk_mem e = m.used_chunk_mem e := by
  cases d <;> cases e <;> first
    | exact absurd rfl h
    | simp [PatrickStarManager.add, PatrickStarManager.used_chunk_mem]

/-- Unregistering bytes on one device leaves the other device's counter
alone. -/
theorem delete_used_other (m : PatrickStarManager) (d e : DeviceType)
    (s : ℚ) (h : d ≠ e) :
    (m.delete d s).used_chunk_mem e = m.used_chunk_mem e := by
  cases d <;> cases e <;> first
    | exact absurd rfl h
    | simp [PatrickStarManager.delete, PatrickStarManager.used_chunk_mem]

/-- Steady-state `next_moment` evaluates to the wrapped successor. -/
theorem next_moment_ok (mt : Metronome) (t : Nat)
    (ht : mt._total_moment = some t) (hpos : 0 < t) :
    mt.next_moment = Except.ok ((mt._moment + 1) % t) := by
  unfold Metronome.next_moment
  rw [ht]
  simp [Nat.pos_iff_ne_zero.mp hpos]

/-! ## Claim theorems -/

/-- C8: for every finite sequence of `add_param` calls on a freshly
created chunk (which starts at `end_pos = 0`), the invariant
`end_pos ≤ capacity` holds after each call; quantifying over all call
lists covers every intermediate prefix. -/
theorem C8_end_pos_le_capacity (dtype : Dtype) (capacity chunk_id : Nat)
    (ps : List Param) :
    (add_param_run (Chunk.init dtype capacity chunk_id) ps).end_pos ≤
      capacity := by
  have key : ∀ (l : List Param) (c : Chunk), c.end_pos ≤ c.capacity →
      (add_param_run c l).end_pos ≤ (add_param_run c l).capacity := by
    intro l
    induction l with
    | nil => intro c h; exact h
    | cons p tl ih =>
        intro c h
        have hstep := add_param_step_invariant c p h
        simpa [add_param_run, List.foldl_cons] using
          ih (add_param_step c p) hstep
  have hcap : ∀ (l : List Param) (c : Chunk),
      (add_param_run c l).capacity = c.capacity := by
    intro l
    induction l with
    | nil => intro c; rfl
    | cons p tl ih =>
        intro c
        simpa [add_param_run, List.foldl_cons, add_param_step_capacity]
          using ih (add_param_step c p)
  have h0 : (Chunk.init dtype capacity chunk_id).end_pos ≤
      (Chunk.init dtype capacity chunk_id).capacity := Nat.zero_le _
  have := key ps (Chunk.init dtype capacity chunk_id) h0
  rwa [hcap ps (Chunk.init dtype capacity chunk_id)] at this

/-- C7: with a float-dtype param, `add_param` returns `False` without
any mutation exactly when `can_fit` fails, i.e. when
`capacity − end_pos < numel`; otherwise it appends the param tagged
with `TensorInfo(chunk_id, end_pos)` (offset = the pre-call
`end_pos`), advances `end_pos` by the element count, and returns
`True`. -/
theorem C7_add_param_spec (c : Chunk) (p : Param)
    (hd : p.dtype = Dtype.float) :
    (c.can_fit p.numel = false →
      c.add_param p = some (c, false) ∧
        (c.capacity : Int) - (c.end_pos : Int) < (p.numel : Int)) ∧
    (c.can_fit p.numel = true →
      c.add_param p = some
        ({ c with
           params := c.params ++
             [{ p with info := some ⟨c.chunk_id, c.end_pos⟩ }]
           end_pos := c.end_pos + p.numel }, true)) := by
  constructor
  · intro h
    refine ⟨?_, ?_⟩
    · unfold Chunk.add_param
      simp [hd, h]
    · unfold Chunk.can_fit at h
      rw [decide_eq_false_iff_not] at h
      omega
  · intro h
    unfold Chunk.add_param
    simp [hd, h]

/-- C7 witness: scenario at capacity 1000 — packing 400 then 400
succeeds (ending at offset 800, with recorded offsets 0 and 400), and a
further 300 fails with no mutation since `1000 − 800 = 200 < 300`. -/
theorem C7_witness :
    chunk1000.add_param p400 = some (c7_c1, true) ∧
    c7_c1.add_param p400 = some (c7_c2, true) ∧
    c7_c2.end_pos = 800 ∧
    c7_c2.add_param p300 = some (c7_c2, false) := by
  refine ⟨?_, ?_, rfl, ?_⟩
  · exact (C7_add_param_spec chunk1000 p400 rfl).2 (by decide)
  · exact (C7_add_param_spec c7_c1 p400 rfl).2 (by decide)
  · exact ((C7_add_param_spec c7_c2 p300 rfl).1 (by decide)).1

/-- C4 (amended): once `reset` has been called after at least one tick
(`_total_moment = some t` with `0 < t`), `next_moment` returns
`(_moment + 1) % t`, which lies in `[0, t)`; before any `reset`
(`_total_moment = none`) it fails the precondition assert.  The
amendment excludes the degenerate `reset`-at-step-0 metronome, where
the source raises `ZeroDivisionError` instead of returning a value
(see the counterexample). -/
theorem C4_next_moment_spec :
    (∀ (m : Metronome) (t : Nat), m._total_moment = some t → 0 < t →
      m.next_moment = Except.ok ((m._moment + 1) % t) ∧
        (m._moment + 1) % t < t) ∧
    (∀ m : Metronome, m._total_moment = none →
      m.next_moment = Except.error "AssertionError") := by
  constructor
  · intro m t ht hpos
    constructor
    · unfold Metronome.next_moment
      rw [ht]
      simp [Nat.pos_iff_ne_zero.mp hpos]
    · exact Nat.mod_lt _ hpos
  · intro m hm
    unfold Metronome.next_moment
    rw [hm]

/-- C4 counterexample: the claim as stated quantifies over *every*
metronome on which `reset` has been called.  Resetting a fresh
metronome captures `total_steps = 0`; `next_moment` then raises
`ZeroDivisionError` (Python `% 0`) instead of returning a value in the
(empty) range `[0, 0)`. -/
theorem C4_counterexample :
    (Metronome.reset Metronome.init)._total_moment = some 0 ∧
    (Metronome.reset Metronome.init).next_moment =
      Except.error "ZeroDivisionError" := ⟨rfl, rfl⟩

/-- C4 witness: a metronome at step 2 with `total_steps = 3` predicts
step 0, inside `[0, 3)`; a fresh metronome fails the assert. -/
theorem C4_witness :
    Metronome.next_moment ⟨2, some 3⟩ = Except.ok 0 ∧
    (0 : Nat) < 3 ∧
    Metronome.next_moment ⟨0, none⟩ = Except.error "AssertionError" := by
  refine ⟨?_, by decide, ?_⟩
  · exact (C4_next_moment_spec.1 ⟨2, some 3⟩ 3 rfl (by decide)).1
  · exact C4_next_moment_spec.2 ⟨0, none⟩ rfl

/-- C3 (amended): `delete` subtracts unconditionally from the device's
chunk counter — there is no negativity check, so a `delete` larger than
the current counter silently drives it negative (no fatal error is
raised; `delete` is a total operation on the cpu/cuda device classes).
-/
theorem C3_delete_spec (m : PatrickStarManager) (d : DeviceType)
    (s : ℚ) :
    (m.delete d s).used_chunk_mem d = m.used_chunk_mem d - s ∧
    (m.used_chunk_mem d < s → (m.delete d s).used_chunk_mem d < 0) := by
  constructor
  · cases d <;>
      simp [PatrickStarManager.delete, PatrickStarManager.used_chunk_mem]
  · intro h
    cases d <;>
      simp only [PatrickStarManager.delete,
        PatrickStarManager.used_chunk_mem] at h ⊢ <;>
      linarith

/-- C3 counterexample: deleting 10 bytes from a cpu counter holding 5
silently yields −5; no fatal accounting error is surfaced, refuting the
claim that such a delete fails. -/
theorem C3_counterexample :
    (({ testMgr with cpu_chunk_used_mem := 5 }).delete
        DeviceType.cpu 10).cpu_chunk_used_mem = -5 := by
  norm_num [PatrickStarManager.delete, testMgr]

/-- C3 witness: the amended statement applied to the counter-5 manager:
deleting 10 leaves a strictly negative counter. -/
theorem C3_witness :
    (({ testMgr with cpu_chunk_used_mem := 5 }).delete
        DeviceType.cpu 10).used_chunk_mem DeviceType.cpu < 0 := by
  refine (C3_delete_spec { testMgr with cpu_chunk_used_mem := 5 }
      DeviceType.cpu 10).2 ?_
  norm_num [testMgr, PatrickStarManager.used_chunk_mem]

/-- C1: in steady state (warmup off), one `tiktac` computes for each
device class `nextAvailable = overallCapacity − sysUsed[next step]` and
issues `make_room(demand − nextAvailable, device)` exactly when
`nextAvailable < demand` (gpu first, then cpu), then advances the
metronome by exactly one step. -/
theorem C1_tiktac_steady (m : PatrickStarManager)
    (gpu_used cpu_used gpu_demand cpu_demand : ℚ) (t : Nat)
    (gpu_sys cpu_sys : ℚ)
    (hw : m.warmup = false)
    (ht : m.metronome._total_moment = some t) (hpos : 0 < t)
    (hg : m.gpu_sys_used_list.get? ((m.metronome._moment + 1) % t) =
      some gpu_sys)
    (hc : m.cpu_sys_used_list.get? ((m.metronome._moment + 1) % t) =
      some cpu_sys) :
    m.tiktac gpu_used cpu_used gpu_demand cpu_demand =
      some ({ m with metronome := m.metronome.tiktac },
        (if m._overall_gpu_mem - gpu_sys < gpu_demand then
            [(gpu_demand - (m._overall_gpu_mem - gpu_sys),
              DeviceType.cuda)]
          else []) ++
        (if m._overall_cpu_mem - cpu_sys < cpu_demand then
            [(cpu_demand - (m._overall_cpu_mem - cpu_sys),
              DeviceType.cpu)]
          else [])) ∧
    (m.metronome.tiktac)._moment = m.metronome._moment + 1 := by
  refine ⟨?_, rfl⟩
  unfold PatrickStarManager.tiktac
  rw [next_moment_ok m.metronome t ht hpos]
  rw [List.get?_eq_getElem?] at hg hc
  simp [hw, hg, hc]

/-- C1 witness: the spec scenario — gpu system history `[100, 120, 90]`,
capacity 300, step 0 of 3, chunk demand 200: `nextAvailable = 300 − 120
= 180 < 200`, so `make_room(20, gpu)` is issued and the metronome
advances to step 1. -/
theorem C1_witness :
    steadyMgr.tiktac 0 0 200 0 =
      some ({ steadyMgr with metronome := ⟨1, some 3⟩ },
            [((20 : ℚ), DeviceType.cuda)]) := by
  have h := C1_tiktac_steady steadyMgr 0 0 200 0 3 120 0 rfl rfl
    (by decide) rfl rfl
  rw [h.1, if_pos (by norm_num [steadyMgr, testMgr]),
    if_neg (by norm_num [steadyMgr, testMgr])]
  norm_num [steadyMgr, testMgr, Metronome.tiktac]

/-- C9 (amended): during warm-up or before training starts,
`available_chunk_mem` returns the static third `overall/3` for the gpu
device class but the *full* `overall` capacity for the cpu device class
(not a strict fraction — see the counterexample); in steady state it
returns `min(overall − sysUsed[next], overall − sysUsed[current]) −
500e6` for both device classes. -/
theorem C9_available_chunk_mem_spec (m : PatrickStarManager) (t : Nat)
    (gnext gcur cnext ccur : ℚ) :
    ((m.warmup || !m._start_training) = true →
      m.available_chunk_mem DeviceType.cuda =
        some (m._overall_gpu_mem / 3) ∧
      m.available_chunk_mem DeviceType.cpu = some m._overall_cpu_mem ∧
      (0 < m._overall_gpu_mem →
        m._overall_gpu_mem / 3 < m._overall_gpu_mem)) ∧
    (m.warmup = false → m._start_training = true →
      m.metronome._total_moment = some t → 0 < t →
      m.gpu_sys_used_list.get? ((m.metronome._moment + 1) % t) =
        some gnext →
      m.gpu_sys_used_list.get? m.metronome.moment = some gcur →
      m.available_chunk_mem DeviceType.cuda =
        some (min (m._overall_gpu_mem - gnext) (m._overall_gpu_mem - gcur)
          - 500 * 1000000)) ∧
    (m.warmup = false → m._start_training = true →
      m.metronome._total_moment = some t → 0 < t →
      m.cpu_sys_used_list.get? ((m.metronome._moment + 1) % t) =
        some cnext →
      m.cpu_sys_used_list.get? m.metronome.moment = some ccur →
      m.available_chunk_mem DeviceType.cpu =
        some (min (m._overall_cpu_mem - cnext) (m._overall_cpu_mem - ccur)
          - 500 * 1000000)) := by
  refine ⟨?_, ?_, ?_⟩
  · intro hwb
    refine ⟨?_, ?_, ?_⟩
    · unfold PatrickStarManager.available_chunk_mem
      rw [hwb]
      rfl
    · unfold PatrickStarManager.available_chunk_mem
      rw [hwb]
      rfl
    · intro hpos
      linarith
  · intro hw hs ht hpos hn hcur
    unfold PatrickStarManager.available_chunk_mem
    rw [next_moment_ok m.metronome t ht hpos]
    rw [List.get?_eq_getElem?] at hn hcur
    simp [hw, hs, hn, hcur]
  · intro hw hs ht hpos hn hcur
    unfold PatrickStarManager.available_chunk_mem
    rw [next_moment_ok m.metronome t ht hpos]
    rw [List.get?_eq_getElem?] at hn hcur
    simp [hw, hs, hn, hcur]

/-- C9 counterexample: a warming-up manager with cpu capacity 100
reports an available chunk budget of the full 100 — not strictly less
than the capacity, refuting the claimed "strictly less" static fraction
for every device class. -/
theorem C9_counterexample :
    ({ testMgr with warmup := true, _overall_cpu_mem := 100
        }).available_chunk_mem DeviceType.cpu =
      some 100 ∧ ¬ ((100 : ℚ) < 100) := ⟨rfl, by norm_num⟩

/-- C9 witness: in warm-up the gpu budget of the scenario manager is
`300 / 3 = 100`; in steady state at step 0 of 3 it is
`min(300 − 120, 300 − 100) − 500e6 = −499999820`. -/
theorem C9_witness :
    ({ steadyMgr with warmup := true }).available_chunk_mem
        DeviceType.cuda = some 100 ∧
    steadyMgr.available_chunk_mem DeviceType.cuda =
      some (-499999820) := by
  constructor
  · have h := ((C9_available_chunk_mem_spec
      { steadyMgr with warmup := true } 3 120 100 0 0).1 rfl).1
    rw [h]
    norm_num [steadyMgr, testMgr]
  · have h := (C9_available_chunk_mem_spec steadyMgr 3 120 100 0 0).2.1
      rfl rfl rfl (by decide) rfl rfl
    rw [h]
    norm_num [steadyMgr, testMgr]

/-- C2 (amended): `release_payload` and `move` carry no
`num_in_compute` guard.  On a chunk in the derived `COMPUTE` state
(payload present, `num_in_compute > 0`) both proceed normally:
`release_payload` drops the payload and lowers the tracer counter by
the payload bytes, and `move` to a different device relocates the
payload — no fatal precondition error is raised. -/
theorem C2_compute_not_guarded (c : Chunk) (p : Payload)
    (mgr : PatrickStarManager) (d : DeviceType)
    (hp : c.payload = some p) (hn : 0 < c.num_in_compute)
    (hd : p.device ≠ d) :
    c.get_state = ChunkState.COMPUTE ∧
    (c.release_payload mgr).map
        (fun r => (r.1.payload, r.2.used_chunk_mem p.device)) =
      some (none,
        mgr.used_chunk_mem p.device - (c.get_payload_space : ℚ)) ∧
    (c.move d mgr).map (fun r => r.1.get_device) = some (some d) := by
  refine ⟨?_, ?_, ?_⟩
  · unfold Chunk.get_state
    rw [hp]
    simp [hn]
  · unfold Chunk.release_payload
    rw [hp]
    simp [delete_used]
  · cases d with
    | cpu =>
        cases hq : p.device with
        | cpu => exact absurd hq hd
        | cuda => simp [Chunk.move, hp, hq, Chunk.get_device]
    | cuda =>
        cases hq : p.device with
        | cuda => exact absurd hq hd
        | cpu => simp [Chunk.move, hp, hq, Chunk.get_device]

/-- C2 counterexample: `computeChunk` is in `COMPUTE`
(`num_in_compute = 1`), yet `release_payload` succeeds and clears the
payload, and `move` to the gpu succeeds and relocates it — neither
fails with a precondition error, refuting the claim. -/
theorem C2_counterexample :
    computeChunk.get_state = ChunkState.COMPUTE ∧
    (computeChunk.release_payload testMgr).map (fun r => r.1.payload) =
      some none ∧
    (computeChunk.move DeviceType.cuda testMgr).map
        (fun r => r.1.get_device) = some (some DeviceType.cuda) :=
  ⟨rfl, rfl, rfl⟩

/-- C2 witness: the amended statement at `computeChunk`: release
succeeds, clearing the payload and dropping the cpu counter from 0 to
−20, and a move to the gpu succeeds. -/
theorem C2_witness :
    computeChunk.get_state = ChunkState.COMPUTE ∧
    (computeChunk.release_payload testMgr).map
        (fun r => (r.1.payload, r.2.used_chunk_mem DeviceType.cpu)) =
      some (none, -20) ∧
    (computeChunk.move DeviceType.cuda testMgr).map
        (fun r => r.1.get_device) = some (some DeviceType.cuda) := by
  have h := C2_compute_not_guarded computeChunk
    { device := DeviceType.cpu, dtype := Dtype.half, numel := 10
      pinned := true }
    testMgr DeviceType.cuda rfl (by decide) (by decide)
  refine ⟨h.1, ?_, h.2.2⟩
  rw [h.2.1]
  norm_num [testMgr, PatrickStarManager.used_chunk_mem, computeChunk,
    Chunk.get_payload_space, Chunk.init, getsizeof]

/-- C5: moving a chunk whose payload (of byte size `s`) sits on device
`A` to a different device `B` lowers the tracked chunk bytes on `A` by
exactly `s`, raises those on `B` by exactly `s`, and conserves the
total tracked across both devices. -/
theorem C5_move_conserves (c : Chunk) (p : Payload)
    (mgr : PatrickStarManager) (d : DeviceType)
    (hp : c.payload = some p) (hd : p.device ≠ d) :
    (c.move d mgr).map (fun r =>
        (r.2.used_chunk_mem p.device, r.2.used_chunk_mem d,
         r.2.used_chunk_mem p.device + r.2.used_chunk_mem d)) =
      some (mgr.used_chunk_mem p.device - (c.get_payload_space : ℚ),
            mgr.used_chunk_mem d + (c.get_payload_space : ℚ),
            mgr.used_chunk_mem p.device + mgr.used_chunk_mem d) := by
  cases d with
  | cpu =>
      cases hq : p.device with
      | cpu => exact absurd hq hd
      | cuda =>
          simp only [Chunk.move, hp, hq]
          simp [Chunk.get_payload_space, PatrickStarManager.delete,
            PatrickStarManager.add, PatrickStarManager.used_chunk_mem, hp]
  | cuda =>
      cases hq : p.device with
      | cuda => exact absurd hq hd
      | cpu =>
          simp only [Chunk.move, hp, hq]
          simp [Chunk.get_payload_space, PatrickStarManager.delete,
            PatrickStarManager.add, PatrickStarManager.used_chunk_mem, hp]

/-- C5 witness: moving the 20-byte cpu-resident chunk to the gpu under
a tracer holding (cpu 100, gpu 50) yields (cpu 80, gpu 70), total 150
conserved. -/
theorem C5_witness :
    (cpuChunk.move DeviceType.cuda mgrAB).map (fun r =>
        (r.2.used_chunk_mem DeviceType.cpu,
         r.2.used_chunk_mem DeviceType.cuda,
         r.2.used_chunk_mem DeviceType.cpu +
           r.2.used_chunk_mem DeviceType.cuda)) =
      some ((80 : ℚ), (70 : ℚ), (150 : ℚ)) := by
  have h := C5_move_conserves cpuChunk
    { device := DeviceType.cpu, dtype := Dtype.half, numel := 10
      pinned := true }
    mgrAB DeviceType.cuda rfl (by decide)
  rw [h]
  norm_num [mgrAB, testMgr, PatrickStarManager.used_chunk_mem, cpuChunk,
    Chunk.get_payload_space, Chunk.init, getsizeof]

/-- C6: on a chunk with no payload, `allocate_payload` directly
followed by `release_payload` restores the tracer's chunk-used counter
for that device to exactly its pre-allocation value. -/
theorem C6_roundtrip (c : Chunk) (mgr : PatrickStarManager)
    (d : DeviceType) (hp : c.payload = none) :
    ((c.allocate_payload d mgr).1.release_payload
        (c.allocate_payload d mgr).2).map
      (fun r => r.2.used_chunk_mem d) = some (mgr.used_chunk_mem d) := by
  unfold Chunk.allocate_payload Chunk.release_payload
  simp only [Option.map_some']
  rw [delete_used, add_used]
  refine congrArg some ?_
  ring

/-- C6 witness: allocating a 20-byte payload on the cpu (counter 100 →
120) and releasing it brings the cpu counter back to exactly 100. -/
theorem C6_witness :
    (((Chunk.init Dtype.half 10 0).allocate_payload DeviceType.cpu
        mgrAB).1.release_payload
      ((Chunk.init Dtype.half 10 0).allocate_payload DeviceType.cpu
        mgrAB).2).map
      (fun r => r.2.used_chunk_mem DeviceType.cpu) = some 100 := by
  have h := C6_roundtrip (Chunk.init Dtype.half 10 0) mgrAB
    DeviceType.cpu rfl
  rw [h]
  norm_num [mgrAB, testMgr, PatrickStarManager.used_chunk_mem]

/-- C10: `allocate_payload` checks nothing: on a chunk whose payload is
already present it raises no error (it is a total operation), silently
installs the fresh payload, and adds the new payload's bytes to the
tracer without subtracting the old payload's bytes — so when the
device's counter was consistent with the (positive-size) old payload on
the same device, it no longer equals the live payload's size
afterwards. -/
theorem C10_allocate_replaces (c : Chunk) (p : Payload)
    (mgr : PatrickStarManager) (d : DeviceType)
    (hp : c.payload = some p) :
    (c.allocate_payload d mgr).1.payload =
      some { device := d, dtype := c.dtype, numel := c.capacity
             pinned := decide (d = DeviceType.cpu) } ∧
    (c.allocate_payload d mgr).2.used_chunk_mem d =
      mgr.used_chunk_mem d + ((getsizeof c.dtype * c.capacity : Nat) : ℚ) ∧
    (p.device = d → 0 < c.get_payload_space →
      mgr.used_chunk_mem d = (c.get_payload_space : ℚ) →
      (c.allocate_payload d mgr).2.used_chunk_mem d ≠
        (((c.allocate_payload d mgr).1.get_payload_space : Nat) : ℚ)) := by
  refine ⟨rfl, ?_, ?_⟩
  · unfold Chunk.allocate_payload
    rw [add_used]
    simp [Chunk.get_payload_space]
  · intro hdev hpos hinv
    have hq : (0 : ℚ) < (c.get_payload_space : ℚ) := by
      exact_mod_cast hpos
    have halloc : (c.allocate_payload d mgr).2.used_chunk_mem d =
        mgr.used_chunk_mem d +
          ((getsizeof c.dtype * c.capacity : Nat) : ℚ) := by
      unfold Chunk.allocate_payload
      rw [add_used]
      simp [Chunk.get_payload_space]
    have hspace2 : (((c.allocate_payload d mgr).1.get_payload_space :
        Nat) : ℚ) = ((getsizeof c.dtype * c.capacity : Nat) : ℚ) := by
      simp [Chunk.allocate_payload, Chunk.get_payload_space]
    rw [halloc, hspace2, hinv]
    intro hcontra
    have hzero : (c.get_payload_space : ℚ) = 0 := by linarith
    linarith

/-- C10 witness: `cpuChunk` already holds a 20-byte cpu payload and the
tracer consistently shows 20 cpu bytes; re-allocating on the cpu
succeeds, installs a fresh 20-byte payload, pushes the counter to 40,
and the counter no longer equals the 20 bytes of live payload. -/
theorem C10_witness :
    (cpuChunk.allocate_payload DeviceType.cpu
        { testMgr with cpu_chunk_used_mem := 20 }).1.payload =
      some { device := DeviceType.cpu, dtype := Dtype.half, numel := 10
             pinned := true } ∧
    (cpuChunk.allocate_payload DeviceType.cpu
        { testMgr with cpu_chunk_used_mem := 20
        }).2.used_chunk_mem DeviceType.cpu = 40 ∧
    (cpuChunk.allocate_payload DeviceType.cpu
        { testMgr with cpu_chunk_used_mem := 20
        }).2.used_chunk_mem DeviceType.cpu ≠
      (((cpuChunk.allocate_payload DeviceType.cpu
        { testMgr with cpu_chunk_used_mem := 20
        }).1.get_payload_space : Nat) : ℚ) := by
  have h := C10_allocate_replaces cpuChunk
    { device := DeviceType.cpu, dtype := Dtype.half, numel := 10
      pinned := true }
    { testMgr with cpu_chunk_used_mem := 20 } DeviceType.cpu rfl
  refine ⟨?_, ?_, ?_⟩
  · exact h.1
  · rw [h.2.1]
    norm_num [testMgr, PatrickStarManager.used_chunk_mem, cpuChunk,
      Chunk.init, getsizeof]
  · refine h.2.2 rfl (by decide) ?_
    norm_num [testMgr, PatrickStarManager.used_chunk_mem, cpuChunk,
      Chunk.get_payload_space, Chunk.init, getsizeof]
